import Mathlib

/-!
# Default theme colors of xmq (`src/main/c/parts/default_themes.c`)

A shallow embedding of the two default color tables, of `defaultColor` and of
`installDefaultThemeColors`, followed by the properties proved about them.

Conventions of the embedding:

* a C array is a `List`; an array read or write at an index outside the array is
  C undefined behaviour and is the outcome `Outcome.undefined`;
* the color parser `string_to_color_def` is a collaborator that is not part of the
  file: the installer takes it as a parameter.  It receives the specification and
  the slot it writes through a pointer, so its embedding maps the specification
  and the slot's previous contents to a status and the slot's new contents;
* the installer's loop carries a log of the parser calls it makes, so that the
  order and number of calls can be stated.
-/

namespace Xmq

/-! ## Outcomes -/

/-- The two error kinds the specification names. -/
inductive ErrorKind where
  | OutOfRange
  | ParseFailure
  deriving DecidableEq, Repr

/-- How a call of a C function ends: it returns a value, it reports an error to
its caller, or it runs into undefined behaviour (here: an array access outside
the array).  The functions of `default_themes.c` contain no statement that reports
an error. -/
inductive Outcome (α : Type) where
  | ok (a : α)
  | error (e : ErrorKind)
  | undefined
  deriving DecidableEq, Repr

namespace Outcome

/-- The call returned a value. -/
def isOk {α : Type} : Outcome α → Bool
  | ok _ => true
  | _ => false

/-- The call reported an error to its caller. -/
def isError {α : Type} : Outcome α → Bool
  | error _ => true
  | _ => false

/-- Apply a function to the returned value. -/
def map {α β : Type} (f : α → β) : Outcome α → Outcome β
  | ok a => ok (f a)
  | error e => error e
  | undefined => undefined

end Outcome

/-! ## The default tables and `defaultColor` -/

/-- Modelled from the spec: the constant `NUM_XMQ_COLOR_NAMES` is declared in a
header that is not part of the sources at hand; the specification gives the
number of roles as `N = 13`. -/
def NUM_XMQ_COLOR_NAMES : Nat := 13

/-- The initialisers of `default_darkbg_colors[NUM_XMQ_COLOR_NAMES]`. -/
def default_darkbg_colors : List String :=
  [ "#2aa1b3",   -- XMQ_COLOR_C
    "#26a269_B", -- XMQ_COLOR_Q
    "#c061cb",   -- XMQ_COLOR_E
    "#a9a9a9",   -- XMQ_COLOR_ENS
    "#ff8c00",   -- XMQ_COLOR_EN
    "#88b4f7",   -- XMQ_COLOR_EK
    "#26a269_B", -- XMQ_COLOR_EKV
    "#88b4f7",   -- XMQ_COLOR_AK
    "#6196ec",   -- XMQ_COLOR_AKV
    "#a9a9a9",   -- XMQ_COLOR_ANS
    "#2aa1b3",   -- XMQ_COLOR_NSD
    "#c061cb",   -- XMQ_COLOR_CP
    "#c061cb" ]  -- XMQ_COLOR_XSL

/-- The initialisers of `default_lightbg_colors[]`. -/
def default_lightbg_colors : List String :=
  [ "#2aa1b3",   -- XMQ_COLOR_C
    "#26a269_B", -- XMQ_COLOR_Q
    "#c061cb",   -- XMQ_COLOR_E
    "#696969",   -- XMQ_COLOR_ENS
    "#a86c00",   -- XMQ_COLOR_EN
    "#0060fd",   -- XMQ_COLOR_EK
    "#26a269_B", -- XMQ_COLOR_EKV
    "#0060fd",   -- XMQ_COLOR_AK
    "#12488c",   -- XMQ_COLOR_AKV
    "#696969",   -- XMQ_COLOR_ANS
    "#1a91a3",   -- XMQ_COLOR_NSD
    "#c061cb",   -- XMQ_COLOR_CP
    "#c061cb" ]  -- XMQ_COLOR_XSL

/-- The C expression `table[i]` for an `int i`: the element when `i` is inside the
array, undefined behaviour otherwise.  No check is made and no error is
reported. -/
def tableRead (table : List String) (i : Int) : Outcome String :=
  if 0 ≤ i then
    match table[i.toNat]? with
    | some s => Outcome.ok s
    | none => Outcome.undefined
  else Outcome.undefined

/-- The function `defaultColor(int i, bool dark_mode)`. -/
def defaultColor (i : Int) (dark_mode : Bool) : Outcome String :=
  if dark_mode then tableRead default_darkbg_colors i
  else tableRead default_lightbg_colors i

/-! ## The theme and the installer -/

/-- The theme, as far as `default_themes.c` uses it: the role-indexed array
`colors` of structured colors of type `C`, and the remaining fields, of type `R`,
which the file never mentions. -/
structure XMQTheme (C R : Type) where
  colors : List C
  rest : R

/-- The embedding of a color parser called as `parser(color, &slot)`: from the
specification and the previous contents of the slot to the status (`true` when
the specification was accepted) and the new contents of the slot. -/
abbrev ColorParser (C : Type) := String → C → Bool × C

/-- One call of the parser made by the installer. -/
structure ParserCall where
  spec : String
  slot : Nat
  accepted : Bool
  deriving DecidableEq, Repr

/-- The state of the installer's loop: the theme and the calls made so far. -/
structure InstallState (C R : Type) where
  theme : XMQTheme C R
  calls : List ParserCall

/-- The body of the loop at index `i`:
`color = defaultColor(i, dark_mode); string_to_color_def(color, &theme->colors[i]);`
The status the parser returns is not used. -/
def installStep {C R : Type} (parse : ColorParser C) (dark_mode : Bool) (i : Nat)
    (st : InstallState C R) : Outcome (InstallState C R) :=
  match defaultColor (i : Int) dark_mode with
  | Outcome.ok color =>
    match st.theme.colors[i]? with
    | some old =>
      let r := parse color old
      Outcome.ok
        { theme := { st.theme with colors := st.theme.colors.set i r.2 }
          calls := st.calls ++ [{ spec := color, slot := i, accepted := r.1 }] }
    | none => Outcome.undefined
  | Outcome.error e => Outcome.error e
  | Outcome.undefined => Outcome.undefined

/-- The loop `for (int i = 0; i < NUM_XMQ_COLOR_NAMES; ++i)` from index `i` on,
with `remaining = NUM_XMQ_COLOR_NAMES - i` iterations left. -/
def installLoop {C R : Type} (parse : ColorParser C) (dark_mode : Bool) :
    Nat → Nat → InstallState C R → Outcome (InstallState C R)
  | 0, _, st => Outcome.ok st
  | remaining + 1, i, st =>
    match installStep parse dark_mode i st with
    | Outcome.ok st' => installLoop parse dark_mode remaining (i + 1) st'
    | Outcome.error e => Outcome.error e
    | Outcome.undefined => Outcome.undefined

/-- A run of `installDefaultThemeColors` with the log of its parser calls. -/
def installRun {C R : Type} (parse : ColorParser C) (theme : XMQTheme C R)
    (dark_mode : Bool) : Outcome (InstallState C R) :=
  installLoop parse dark_mode NUM_XMQ_COLOR_NAMES 0 { theme := theme, calls := [] }

/-- The function `installDefaultThemeColors(XMQTheme *theme, bool dark_mode)`: the
theme after the call. -/
def installDefaultThemeColors {C R : Type} (parse : ColorParser C)
    (theme : XMQTheme C R) (dark_mode : Bool) : Outcome (XMQTheme C R) :=
  (installRun parse theme dark_mode).map (fun st => st.theme)

/-- The parser calls made by `installDefaultThemeColors`, in order. -/
def installCalls {C R : Type} (parse : ColorParser C) (theme : XMQTheme C R)
    (dark_mode : Bool) : Outcome (List ParserCall) :=
  (installRun parse theme dark_mode).map (fun st => st.calls)

/-! ## Color specifications and the parser of the specification -/

/-- The sixteen hexadecimal digits in order of value, in lower case. -/
def hexDigits : List Char := "0123456789abcdef".data

/-- The value of a hexadecimal digit of either case. -/
def hexValue (c : Char) : Option Nat :=
  let k := hexDigits.indexOf c.toLower
  if k < 16 then some k else none

/-- A hexadecimal digit. -/
def isHexDigit (c : Char) : Bool := (hexValue c).isSome

/-- A style token: one or more letters or digits. -/
def isStyleToken (tok : List Char) : Bool :=
  !tok.isEmpty && tok.all (fun c => c.isAlphanum)

/-- Well-formed characters of a color specification: `#`, six hexadecimal digits
and then either nothing or `_` and a style token. -/
def wellFormedChars : List Char → Bool
  | '#' :: r1 :: r2 :: g1 :: g2 :: b1 :: b2 :: rest =>
    [r1, r2, g1, g2, b1, b2].all isHexDigit &&
      (match rest with
       | [] => true
       | '_' :: tok => isStyleToken tok
       | _ => false)
  | _ => false

/-- The pattern `#RRGGBB` or `#RRGGBB_<style>` on a string. -/
def wellFormedSpec (s : String) : Bool := wellFormedChars s.data

/-- Modelled from the spec: the structured color is owned by the parsing
collaborator and its declaration is not part of the sources at hand; the
specification names its content as RGB channels and style flags, of which it
names the bold flag. -/
structure XMQColorDef where
  r : Nat
  g : Nat
  b : Nat
  bold : Bool
  deriving DecidableEq, Repr

/-- The value of a two-digit hexadecimal channel. -/
def hexByte (hi lo : Char) : Option Nat :=
  match hexValue hi, hexValue lo with
  | some h, some l => some (16 * h + l)
  | _, _ => none

/-- Modelled from the spec: the parsing function behind `string_to_color_def` is
defined in a file that is not part of the sources at hand.  Following the
specification (`parse(spec) -> StructuredColor`, failing on malformed input) it
accepts `#RRGGBB`, optionally followed by the style suffix `_B` (the bold marker,
the one style token the specification names), and yields the three channels and
the bold flag. -/
def parseColorSpec (s : String) : Option XMQColorDef :=
  match s.data with
  | '#' :: r1 :: r2 :: g1 :: g2 :: b1 :: b2 :: rest =>
    match hexByte r1 r2, hexByte g1 g2, hexByte b1 b2 with
    | some r, some g, some b =>
      match rest with
      | [] => some { r := r, g := g, b := b, bold := false }
      | ['_', 'B'] => some { r := r, g := g, b := b, bold := true }
      | _ => none
    | _, _, _ => none
  | _ => none

/-- Modelled from the spec: `string_to_color_def(color, &slot)` is declared and
defined outside the sources at hand; it is the parser of the specification in the
calling convention of the installer.  An accepted specification overwrites the
slot; of a rejected one the specification says only that the call fails, and the
slot is kept. -/
def string_to_color_def : ColorParser XMQColorDef := fun s old =>
  match parseColorSpec s with
  | some c => (true, c)
  | none => (false, old)

/-- A parser that rejects every specification and leaves the slot as it was. -/
def rejectAll : ColorParser XMQColorDef := fun _ old => (false, old)

/-- A theme of `NUM_XMQ_COLOR_NAMES` black slots and no other field. -/
def blankTheme : XMQTheme XMQColorDef Unit :=
  { colors := List.replicate 13 { r := 0, g := 0, b := 0, bold := false }
    rest := () }

/-- A theme whose slots hold the parsed dark-mode defaults. -/
def darkDefaultsTheme : XMQTheme XMQColorDef Unit :=
  { colors :=
      [ { r := 0x2a, g := 0xa1, b := 0xb3, bold := false },
        { r := 0x26, g := 0xa2, b := 0x69, bold := true },
        { r := 0xc0, g := 0x61, b := 0xcb, bold := false },
        { r := 0xa9, g := 0xa9, b := 0xa9, bold := false },
        { r := 0xff, g := 0x8c, b := 0x00, bold := false },
        { r := 0x88, g := 0xb4, b := 0xf7, bold := false },
        { r := 0x26, g := 0xa2, b := 0x69, bold := true },
        { r := 0x88, g := 0xb4, b := 0xf7, bold := false },
        { r := 0x61, g := 0x96, b := 0xec, bold := false },
        { r := 0xa9, g := 0xa9, b := 0xa9, bold := false },
        { r := 0x2a, g := 0xa1, b := 0xb3, bold := false },
        { r := 0xc0, g := 0x61, b := 0xcb, bold := false },
        { r := 0xc0, g := 0x61, b := 0xcb, bold := false } ]
    rest := () }

/-! ## Definitions used in the statements -/

/-- The table `defaultColor` reads for a display mode. -/
def tableOf (dark_mode : Bool) : List String :=
  if dark_mode then default_darkbg_colors else default_lightbg_colors

/-- The specification of role `j` in a display mode (the empty string beyond the
table; used in statements only for `j` inside the table). -/
def specAt (dark_mode : Bool) (j : Nat) : String :=
  (tableOf dark_mode).getD j ""

/-- The parser call the loop makes at index `j` on a color array. -/
def callAt {C : Type} (parse : ColorParser C) (dark_mode : Bool) (colors : List C)
    (j : Nat) : ParserCall :=
  { spec := specAt dark_mode j
    slot := j
    accepted :=
      match colors[j]? with
      | some old => (parse (specAt dark_mode j) old).1
      | none => false }

/-- A parser that accepts exactly the well-formed specifications and leaves the
slot as it was. -/
def acceptWellFormed : ColorParser XMQColorDef := fun s old => (wellFormedSpec s, old)

/-- A theme with too few slots: twelve black slots. -/
def shortTheme : XMQTheme XMQColorDef Unit :=
  { colors := List.replicate 12 { r := 0, g := 0, b := 0, bold := false }
    rest := () }

/-- The part of a specification after its first seven characters `#RRGGBB`. -/
def styleSuffix (s : String) : String := String.mk (s.data.drop 7)

/-! ## The memory the installer can reach -/

/-- The memory that `installDefaultThemeColors` can reach: the contents of the two
global tables and the theme behind the pointer `theme`.  The parser is handed the
specification and the address of one slot, and, as a parser of a specification
into one structured color, writes that slot only. -/
structure ProgramState (C R : Type) where
  darkbg_colors : List String
  lightbg_colors : List String
  theme : XMQTheme C R

/-- The memory at program start: the two tables hold their initialisers. -/
def programStart {C R : Type} (theme : XMQTheme C R) : ProgramState C R :=
  { darkbg_colors := default_darkbg_colors
    lightbg_colors := default_lightbg_colors
    theme := theme }

/-- The function `defaultColor(int i, bool dark_mode)` reading the tables from
memory. -/
def defaultColorIn {C R : Type} (m : ProgramState C R) (i : Int) (dark_mode : Bool) :
    Outcome String :=
  if dark_mode then tableRead m.darkbg_colors i
  else tableRead m.lightbg_colors i

/-- The body of the installer's loop at index `i`, as a function of the memory. -/
def installStepIn {C R : Type} (parse : ColorParser C) (dark_mode : Bool) (i : Nat)
    (m : ProgramState C R) : Outcome (ProgramState C R) :=
  match defaultColorIn m (i : Int) dark_mode with
  | Outcome.ok color =>
    match m.theme.colors[i]? with
    | some old =>
      Outcome.ok
        { m with theme :=
            { m.theme with colors := m.theme.colors.set i (parse color old).2 } }
    | none => Outcome.undefined
  | Outcome.error e => Outcome.error e
  | Outcome.undefined => Outcome.undefined

/-- The installer's loop from index `i` on with `remaining` iterations left, as a
function of the memory. -/
def installLoopIn {C R : Type} (parse : ColorParser C) (dark_mode : Bool) :
    Nat → Nat → ProgramState C R → Outcome (ProgramState C R)
  | 0, _, m => Outcome.ok m
  | remaining + 1, i, m =>
    match installStepIn parse dark_mode i m with
    | Outcome.ok m' => installLoopIn parse dark_mode remaining (i + 1) m'
    | Outcome.error e => Outcome.error e
    | Outcome.undefined => Outcome.undefined

/-- The function `installDefaultThemeColors(XMQTheme *theme, bool dark_mode)` as a
function of the memory: the memory after the call. -/
def installDefaultThemeColorsIn {C R : Type} (parse : ColorParser C)
    (m : ProgramState C R) (dark_mode : Bool) : Outcome (ProgramState C R) :=
  installLoopIn parse dark_mode NUM_XMQ_COLOR_NAMES 0 m

/-- A theme with further fields: the slots hold the parsed dark-mode defaults, and
the other fields are a text and a number. -/
def namedTheme : XMQTheme XMQColorDef (String × Nat) :=
  { colors := darkDefaultsTheme.colors
    rest := ("sample", 4) }

/-! ## Lemmas on the embedding -/

theorem tableOf_length (dark_mode : Bool) :
    (tableOf dark_mode).length = NUM_XMQ_COLOR_NAMES := by
  cases dark_mode <;> rfl

theorem defaultColor_inRange (dark_mode : Bool) (j : Nat) (hj : j < NUM_XMQ_COLOR_NAMES) :
    defaultColor (j : Int) dark_mode = Outcome.ok (specAt dark_mode j) := by
  have h13 : j < 13 := hj
  interval_cases j <;> cases dark_mode <;> rfl

theorem defaultColor_outOfRange (dark_mode : Bool) (i : Int)
    (hi : i < 0 ∨ (NUM_XMQ_COLOR_NAMES : Int) ≤ i) :
    defaultColor i dark_mode = Outcome.undefined := by
  have hlen : ∀ t : List String, t.length = 13 → tableRead t i = Outcome.undefined := by
    intro t ht
    unfold tableRead
    rcases hi with hneg | hge
    · rw [if_neg (by omega)]
    · have h13 : (13 : Int) ≤ i := hge
      rw [if_pos (by omega)]
      have : t[i.toNat]? = none := by
        apply List.getElem?_eq_none
        omega
      rw [this]
  unfold defaultColor
  cases dark_mode
  · exact hlen _ rfl
  · exact hlen _ rfl


theorem installStep_inRange {C R : Type} (parse : ColorParser C) (dark_mode : Bool)
    (i : Nat) (st : InstallState C R) (old : C) (hi : i < NUM_XMQ_COLOR_NAMES)
    (hold : st.theme.colors[i]? = some old) :
    installStep parse dark_mode i st = Outcome.ok
      { theme := { st.theme with
          colors := st.theme.colors.set i (parse (specAt dark_mode i) old).2 }
        calls := st.calls ++ [callAt parse dark_mode st.theme.colors i] } := by
  unfold installStep
  rw [defaultColor_inRange dark_mode i hi]
  simp only [hold, callAt]

theorem installStep_slotMissing {C R : Type} (parse : ColorParser C) (dark_mode : Bool)
    (i : Nat) (st : InstallState C R) (hi : i < NUM_XMQ_COLOR_NAMES)
    (hlen : st.theme.colors.length ≤ i) :
    installStep parse dark_mode i st = Outcome.undefined := by
  unfold installStep
  rw [defaultColor_inRange dark_mode i hi]
  have : st.theme.colors[i]? = none := List.getElem?_eq_none hlen
  simp only [this]

/-- The loop from index `i` with `n` iterations left, on a color array that has
the slots `i .. i+n-1`: it completes, writes exactly those slots with what the
parser yields for them, keeps every other slot, the array length and the other
fields, and appends one call per index in ascending order. -/
theorem installLoop_spec {C R : Type} (parse : ColorParser C) (dark_mode : Bool) :
    ∀ (n i : Nat) (st : InstallState C R),
      i + n ≤ NUM_XMQ_COLOR_NAMES → i + n ≤ st.theme.colors.length →
      ∃ st' : InstallState C R,
        installLoop parse dark_mode n i st = Outcome.ok st' ∧
        st'.theme.rest = st.theme.rest ∧
        st'.theme.colors.length = st.theme.colors.length ∧
        (∀ j old, i ≤ j → j < i + n → st.theme.colors[j]? = some old →
          st'.theme.colors[j]? = some (parse (specAt dark_mode j) old).2) ∧
        (∀ j, j < i ∨ i + n ≤ j → st'.theme.colors[j]? = st.theme.colors[j]?) ∧
        st'.calls = st.calls ++
          (List.range' i n).map (callAt parse dark_mode st.theme.colors) := by
  intro n
  induction n with
  | zero =>
    intro i st _ _
    exact ⟨st, rfl, rfl, rfl, fun j old h1 h2 => by omega, fun j _ => rfl, by simp⟩
  | succ n ih =>
    intro i st hN hlen
    have hi : i < st.theme.colors.length := by omega
    obtain ⟨old, hold⟩ : ∃ old, st.theme.colors[i]? = some old :=
      ⟨st.theme.colors[i], List.getElem?_eq_getElem hi⟩
    have hstep := installStep_inRange parse dark_mode i st old (by omega) hold
    obtain ⟨st', hrun, hrest, hlen', hin, hout, hcalls⟩ :=
      ih (i + 1)
        { theme := { st.theme with
            colors := st.theme.colors.set i (parse (specAt dark_mode i) old).2 }
          calls := st.calls ++ [callAt parse dark_mode st.theme.colors i] }
        (by omega) (by simp only [List.length_set]; omega)
    refine ⟨st', ?_, ?_, ?_, ?_, ?_, ?_⟩
    · simp only [installLoop, hstep]
      exact hrun
    · exact hrest
    · rw [hlen', List.length_set]
    · intro j old' h1 h2 hj
      by_cases hji : j = i
      · subst hji
        rw [hout j (Or.inl (by omega))]
        rw [hold] at hj
        cases hj
        simp only [List.getElem?_set_self hi]
      · apply hin j old' (by omega) (by omega)
        simp only []
        rw [List.getElem?_set_ne (Ne.symm hji)]
        exact hj
    · intro j hj
      rw [hout j (by omega)]
      simp only []
      exact List.getElem?_set_ne (by omega)
    · rw [hcalls, List.range'_succ, List.map_cons, List.append_assoc, List.singleton_append]
      congr 2
      apply List.map_congr_left
      intro j hj
      have hlt : i < j := by
        have := (List.mem_range'_1.mp hj).1
        omega
      simp only [callAt]
      rw [List.getElem?_set_ne (by omega)]


/-- A whole run on a theme with `NUM_XMQ_COLOR_NAMES` slots. -/
theorem installRun_spec {C R : Type} (parse : ColorParser C) (theme : XMQTheme C R)
    (dark_mode : Bool) (hlen : theme.colors.length = NUM_XMQ_COLOR_NAMES) :
    ∃ st' : InstallState C R,
      installRun parse theme dark_mode = Outcome.ok st' ∧
      st'.theme.rest = theme.rest ∧
      st'.theme.colors.length = NUM_XMQ_COLOR_NAMES ∧
      (∀ j old, j < NUM_XMQ_COLOR_NAMES → theme.colors[j]? = some old →
        st'.theme.colors[j]? = some (parse (specAt dark_mode j) old).2) ∧
      st'.calls =
        (List.range' 0 NUM_XMQ_COLOR_NAMES).map (callAt parse dark_mode theme.colors) := by
  obtain ⟨st', hrun, hrest, hlen', hin, _, hcalls⟩ :=
    installLoop_spec parse dark_mode NUM_XMQ_COLOR_NAMES 0
      { theme := theme, calls := [] } (by omega) (by simp only [hlen]; omega)
  refine ⟨st', hrun, hrest, ?_, ?_, ?_⟩
  · rw [hlen', hlen]
  · intro j old hj hold
    exact hin j old (Nat.zero_le j) (by omega) hold
  · rw [hcalls, List.nil_append]

/-- The theme after `installDefaultThemeColors` on a theme with
`NUM_XMQ_COLOR_NAMES` slots. -/
theorem install_spec {C R : Type} (parse : ColorParser C) (theme : XMQTheme C R)
    (dark_mode : Bool) (hlen : theme.colors.length = NUM_XMQ_COLOR_NAMES) :
    ∃ theme' : XMQTheme C R,
      installDefaultThemeColors parse theme dark_mode = Outcome.ok theme' ∧
      theme'.rest = theme.rest ∧
      theme'.colors.length = NUM_XMQ_COLOR_NAMES ∧
      (∀ j old, j < NUM_XMQ_COLOR_NAMES → theme.colors[j]? = some old →
        theme'.colors[j]? = some (parse (specAt dark_mode j) old).2) := by
  obtain ⟨st', hrun, hrest, hlen', hin, _⟩ := installRun_spec parse theme dark_mode hlen
  exact ⟨st'.theme, by simp only [installDefaultThemeColors, hrun, Outcome.map],
    hrest, hlen', hin⟩

/-- A slot of an array with `NUM_XMQ_COLOR_NAMES` elements. -/
theorem slot_exists {C : Type} (colors : List C) (hlen : colors.length = NUM_XMQ_COLOR_NAMES)
    (j : Nat) (hj : j < NUM_XMQ_COLOR_NAMES) : ∃ old, colors[j]? = some old :=
  ⟨colors[j], List.getElem?_eq_getElem (by omega)⟩

/-- An `ok` outcome of `defaultColor` comes from an index inside the table. -/
theorem defaultColor_ok_index (i : Int) (dark_mode : Bool) (spec : String)
    (h : defaultColor i dark_mode = Outcome.ok spec) :
    ∃ j : Nat, j < NUM_XMQ_COLOR_NAMES ∧ i = (j : Int) ∧ spec = specAt dark_mode j := by
  by_cases hr : i < 0 ∨ (NUM_XMQ_COLOR_NAMES : Int) ≤ i
  · rw [defaultColor_outOfRange dark_mode i hr] at h
    cases h
  · have h0 : 0 ≤ i := by omega
    have hN : i < (NUM_XMQ_COLOR_NAMES : Int) := by omega
    refine ⟨i.toNat, by omega, by omega, ?_⟩
    have hi : i = ((i.toNat : Nat) : Int) := by omega
    rw [hi, defaultColor_inRange dark_mode i.toNat (by omega)] at h
    cases h
    rfl


/-- The table read never reports an error. -/
theorem tableRead_isError (table : List String) (i : Int) :
    (tableRead table i).isError = false := by
  unfold tableRead
  split
  · split <;> rfl
  · rfl

/-- The lookup `defaultColor` never reports an error. -/
theorem defaultColor_isError (i : Int) (dark_mode : Bool) :
    (defaultColor i dark_mode).isError = false := by
  unfold defaultColor
  split <;> exact tableRead_isError _ i

/-- Two parsers that write the same colors drive the loop through the same themes,
whatever statuses they return. -/
theorem installLoop_status_blind {C R : Type} (parse parse' : ColorParser C)
    (dark_mode : Bool) (hsame : ∀ s c, (parse' s c).2 = (parse s c).2) :
    ∀ (n i : Nat) (st st' : InstallState C R), st'.theme = st.theme →
      (installLoop parse' dark_mode n i st').map (fun x => x.theme) =
        (installLoop parse dark_mode n i st).map (fun x => x.theme) := by
  intro n
  induction n with
  | zero =>
    intro i st st' h
    simp only [installLoop, Outcome.map, h]
  | succ n ih =>
    intro i st st' h
    simp only [installLoop, installStep, h]
    cases defaultColor (i : Int) dark_mode with
    | ok color =>
      cases hold : st.theme.colors[i]? with
      | none => rfl
      | some old =>
        simp only []
        apply ih
        simp only [hsame]
    | error e => rfl
    | undefined => rfl

/-- The loop never reports an error. -/
theorem installLoop_isError {C R : Type} (parse : ColorParser C) (dark_mode : Bool) :
    ∀ (n i : Nat) (st : InstallState C R),
      (installLoop parse dark_mode n i st).isError = false := by
  intro n
  induction n with
  | zero =>
    intro i st
    rfl
  | succ n ih =>
    intro i st
    have hd := defaultColor_isError (i : Int) dark_mode
    simp only [installLoop, installStep]
    cases hdc : defaultColor (i : Int) dark_mode with
    | ok color =>
      cases hold : st.theme.colors[i]? with
      | none => rfl
      | some old =>
        simp only []
        apply ih
    | error e =>
      rw [hdc] at hd
      cases hd
    | undefined => rfl

/-- The function `installDefaultThemeColors` never reports an error. -/
theorem install_isError {C R : Type} (parse : ColorParser C) (theme : XMQTheme C R)
    (dark_mode : Bool) :
    (installDefaultThemeColors parse theme dark_mode).isError = false := by
  have h := installLoop_isError parse dark_mode NUM_XMQ_COLOR_NAMES 0
    ({ theme := theme, calls := [] } : InstallState C R)
  unfold installDefaultThemeColors installRun
  cases hrun : installLoop parse dark_mode NUM_XMQ_COLOR_NAMES 0
      ({ theme := theme, calls := [] } : InstallState C R) with
  | ok st => rfl
  | error e =>
    rw [hrun] at h
    cases h
  | undefined => rfl

/-- Every entry of the two tables is a well-formed specification. -/
theorem specAt_wellFormed (dark_mode : Bool) (j : Nat) (hj : j < NUM_XMQ_COLOR_NAMES) :
    wellFormedSpec (specAt dark_mode j) = true := by
  have h13 : j < 13 := hj
  interval_cases j <;> cases dark_mode <;> decide

/-- The loop on a color array that ends inside the index range still to be
visited: the slot access one past the end of the array is reached. -/
theorem installLoop_shortArray {C R : Type} (parse : ColorParser C) (dark_mode : Bool) :
    ∀ (n i : Nat) (st : InstallState C R),
      i + n ≤ NUM_XMQ_COLOR_NAMES → i ≤ st.theme.colors.length →
      st.theme.colors.length < i + n →
      installLoop parse dark_mode n i st = Outcome.undefined := by
  intro n
  induction n with
  | zero =>
    intro i st _ h1 h2
    omega
  | succ n ih =>
    intro i st hN h1 h2
    by_cases hlen : st.theme.colors.length ≤ i
    · simp only [installLoop, installStep_slotMissing parse dark_mode i st (by omega) hlen]
    · have hi : i < st.theme.colors.length := by omega
      obtain ⟨old, hold⟩ : ∃ old, st.theme.colors[i]? = some old :=
        ⟨st.theme.colors[i], List.getElem?_eq_getElem hi⟩
      simp only [installLoop, installStep_inRange parse dark_mode i st old (by omega) hold]
      apply ih
      · omega
      · simp only [List.length_set]
        omega
      · simp only [List.length_set]
        omega

/-- On a theme with fewer than `NUM_XMQ_COLOR_NAMES` slots the installer writes
outside the array. -/
theorem install_shortArray {C R : Type} (parse : ColorParser C) (theme : XMQTheme C R)
    (dark_mode : Bool) (hlen : theme.colors.length < NUM_XMQ_COLOR_NAMES) :
    installDefaultThemeColors parse theme dark_mode = Outcome.undefined := by
  unfold installDefaultThemeColors installRun
  rw [installLoop_shortArray parse dark_mode NUM_XMQ_COLOR_NAMES 0 _ (by omega)
    (Nat.zero_le _) (by simp only []; omega)]
  rfl

/-- The loop keeps the other fields of the theme and the length of the color
array, whenever it completes. -/
theorem installLoop_frame {C R : Type} (parse : ColorParser C) (dark_mode : Bool) :
    ∀ (n i : Nat) (st st' : InstallState C R),
      installLoop parse dark_mode n i st = Outcome.ok st' →
      st'.theme.rest = st.theme.rest ∧
      st'.theme.colors.length = st.theme.colors.length := by
  intro n
  induction n with
  | zero =>
    intro i st st' h
    simp only [installLoop] at h
    cases h
    exact ⟨rfl, rfl⟩
  | succ n ih =>
    intro i st st' h
    simp only [installLoop, installStep] at h
    cases hdc : defaultColor (i : Int) dark_mode with
    | ok color =>
      rw [hdc] at h
      cases hold : st.theme.colors[i]? with
      | none =>
        rw [hold] at h
        cases h
      | some old =>
        rw [hold] at h
        have := ih _ _ _ h
        simp only [List.length_set] at this
        exact this
    | error e =>
      rw [hdc] at h
      cases h
    | undefined =>
      rw [hdc] at h
      cases h

/-- The slot access outside the array is reached on the twelve-slot theme. -/
theorem install_shortTheme :
    installDefaultThemeColors string_to_color_def shortTheme true = Outcome.undefined :=
  install_shortArray string_to_color_def shortTheme true (by decide)

/-- With a parser whose result on each default specification of a mode depends on
the specification only, two themes with `NUM_XMQ_COLOR_NAMES` slots hold the same
colors after the installer has run on each in that mode. -/
theorem install_colors_eq {C R : Type} (parse : ColorParser C)
    (theme1 theme2 : XMQTheme C R) (dark_mode : Bool)
    (hlen1 : theme1.colors.length = NUM_XMQ_COLOR_NAMES)
    (hlen2 : theme2.colors.length = NUM_XMQ_COLOR_NAMES)
    (hparse : ∀ (i : Int) (spec : String), defaultColor i dark_mode = Outcome.ok spec →
      ∀ c1 c2 : C, (parse spec c1).2 = (parse spec c2).2) :
    ∃ after1 after2 : XMQTheme C R,
      installDefaultThemeColors parse theme1 dark_mode = Outcome.ok after1 ∧
      installDefaultThemeColors parse theme2 dark_mode = Outcome.ok after2 ∧
      after1.rest = theme1.rest ∧
      after1.colors.length = NUM_XMQ_COLOR_NAMES ∧
      after1.colors = after2.colors := by
  obtain ⟨after1, hrun1, hrest1, hlen1', hin1⟩ := install_spec parse theme1 dark_mode hlen1
  obtain ⟨after2, hrun2, _, hlen2', hin2⟩ := install_spec parse theme2 dark_mode hlen2
  refine ⟨after1, after2, hrun1, hrun2, hrest1, hlen1', ?_⟩
  apply List.ext_getElem?
  intro j
  by_cases hj : j < NUM_XMQ_COLOR_NAMES
  · obtain ⟨old1, hold1⟩ := slot_exists theme1.colors hlen1 j hj
    obtain ⟨old2, hold2⟩ := slot_exists theme2.colors hlen2 j hj
    rw [hin1 j old1 hj hold1, hin2 j old2 hj hold2]
    rw [hparse (j : Int) (specAt dark_mode j) (defaultColor_inRange dark_mode j hj)
      old1 old2]
  · rw [List.getElem?_eq_none (by omega), List.getElem?_eq_none (by omega)]

/-- The loop on the memory writes neither table, keeps the other fields of the
theme and the length of the color array, whenever it completes. -/
theorem installLoopIn_frame {C R : Type} (parse : ColorParser C) (dark_mode : Bool) :
    ∀ (n i : Nat) (m m' : ProgramState C R),
      installLoopIn parse dark_mode n i m = Outcome.ok m' →
      m'.darkbg_colors = m.darkbg_colors ∧
      m'.lightbg_colors = m.lightbg_colors ∧
      m'.theme.rest = m.theme.rest ∧
      m'.theme.colors.length = m.theme.colors.length := by
  intro n
  induction n with
  | zero =>
    intro i m m' h
    simp only [installLoopIn] at h
    cases h
    exact ⟨rfl, rfl, rfl, rfl⟩
  | succ n ih =>
    intro i m m' h
    simp only [installLoopIn, installStepIn] at h
    cases hdc : defaultColorIn m (i : Int) dark_mode with
    | ok color =>
      rw [hdc] at h
      cases hold : m.theme.colors[i]? with
      | none =>
        rw [hold] at h
        cases h
      | some old =>
        rw [hold] at h
        have := ih _ _ _ h
        simp only [List.length_set] at this
        exact this
    | error e =>
      rw [hdc] at h
      cases h
    | undefined =>
      rw [hdc] at h
      cases h

/-- While the tables in memory hold their initialisers, the loop on the memory and
the loop of `installLoop` go through the same themes. -/
theorem installLoopIn_theme {C R : Type} (parse : ColorParser C) (dark_mode : Bool) :
    ∀ (n i : Nat) (m : ProgramState C R) (st : InstallState C R),
      m.darkbg_colors = default_darkbg_colors →
      m.lightbg_colors = default_lightbg_colors →
      m.theme = st.theme →
      (installLoopIn parse dark_mode n i m).map (fun x => x.theme) =
        (installLoop parse dark_mode n i st).map (fun x => x.theme) := by
  intro n
  induction n with
  | zero =>
    intro i m st _ _ h
    simp only [installLoopIn, installLoop, Outcome.map, h]
  | succ n ih =>
    intro i m st hd hl h
    have hdc : defaultColorIn m (i : Int) dark_mode = defaultColor (i : Int) dark_mode := by
      simp only [defaultColorIn, defaultColor, hd, hl]
    simp only [installLoopIn, installStepIn, installLoop, installStep, hdc, h]
    cases defaultColor (i : Int) dark_mode with
    | ok color =>
      cases hold : st.theme.colors[i]? with
      | none => rfl
      | some old =>
        simp only []
        apply ih
        · exact hd
        · exact hl
        · simp only [h]
    | error e => rfl
    | undefined => rfl

/-! ## Properties of `defaultColor` and `installDefaultThemeColors` -/

/-- C1: after `installDefaultThemeColors` on a theme with `NUM_XMQ_COLOR_NAMES = 13`
slots, for either mode and any parser, the call completes, the array still has 13
slots, and every slot `i < 13` holds what the parser yields for
`defaultColor(i, dark_mode)` when called on that slot. -/
theorem install_writes_every_slot {C R : Type} (parse : ColorParser C)
    (theme : XMQTheme C R) (dark_mode : Bool)
    (hlen : theme.colors.length = NUM_XMQ_COLOR_NAMES) :
    NUM_XMQ_COLOR_NAMES = 13 ∧
    ∃ theme' : XMQTheme C R,
      installDefaultThemeColors parse theme dark_mode = Outcome.ok theme' ∧
      theme'.colors.length = NUM_XMQ_COLOR_NAMES ∧
      ∀ i : Nat, i < NUM_XMQ_COLOR_NAMES →
        ∃ (spec : String) (old : C),
          defaultColor (i : Int) dark_mode = Outcome.ok spec ∧
          theme.colors[i]? = some old ∧
          theme'.colors[i]? = some (parse spec old).2 := by
  obtain ⟨theme', hrun, _, hlen', hin⟩ := install_spec parse theme dark_mode hlen
  refine ⟨rfl, theme', hrun, hlen', ?_⟩
  intro i hi
  obtain ⟨old, hold⟩ := slot_exists theme.colors hlen i hi
  exact ⟨specAt dark_mode i, old, defaultColor_inRange dark_mode i hi, hold,
    hin i old hi hold⟩

/-- Witness of C1 on the blank theme, in dark mode, with the parser of the
specification. -/
theorem install_writes_every_slot_witness :
    blankTheme.colors.length = NUM_XMQ_COLOR_NAMES ∧
    ∃ theme' : XMQTheme XMQColorDef Unit,
      installDefaultThemeColors string_to_color_def blankTheme true = Outcome.ok theme' ∧
      theme'.colors.length = NUM_XMQ_COLOR_NAMES ∧
      ∀ i : Nat, i < NUM_XMQ_COLOR_NAMES →
        ∃ (spec : String) (old : XMQColorDef),
          defaultColor (i : Int) true = Outcome.ok spec ∧
          blankTheme.colors[i]? = some old ∧
          theme'.colors[i]? = some (string_to_color_def spec old).2 :=
  ⟨rfl, (install_writes_every_slot string_to_color_def blankTheme true rfl).2⟩

/-- C2: for every index `0 <= i < 13` and either mode, `defaultColor` returns a
string of the form `#RRGGBB` or `#RRGGBB_<style>`. -/
theorem defaultColor_wellFormed (i : Int) (dark_mode : Bool) (h0 : 0 ≤ i)
    (hN : i < (NUM_XMQ_COLOR_NAMES : Int)) :
    ∃ spec : String,
      defaultColor i dark_mode = Outcome.ok spec ∧ wellFormedSpec spec = true := by
  have h13 : i < 13 := hN
  obtain ⟨j, rfl⟩ : ∃ j : Nat, i = (j : Int) := ⟨i.toNat, by omega⟩
  have hj : j < 13 := by omega
  interval_cases j <;> cases dark_mode <;> exact ⟨_, rfl, by decide⟩

/-- Witness of C2 at the last role, in light mode. -/
theorem defaultColor_wellFormed_witness :
    (0 : Int) ≤ 12 ∧ (12 : Int) < (NUM_XMQ_COLOR_NAMES : Int) ∧
    ∃ spec : String,
      defaultColor 12 false = Outcome.ok spec ∧ wellFormedSpec spec = true :=
  ⟨by decide, by decide, defaultColor_wellFormed 12 false (by decide) (by decide)⟩

/-- C3: one call of `installDefaultThemeColors` on a theme with 13 slots makes
exactly 13 parser calls; the `k`-th call is on `defaultColor(k, dark_mode)` with
target slot `k`, so the target slots are `0, 1, .., 12` in this order, each once. -/
theorem install_calls_in_order {C R : Type} (parse : ColorParser C)
    (theme : XMQTheme C R) (dark_mode : Bool)
    (hlen : theme.colors.length = NUM_XMQ_COLOR_NAMES) :
    ∃ calls : List ParserCall,
      installCalls parse theme dark_mode = Outcome.ok calls ∧
      calls.length = 13 ∧
      calls.map (fun c => c.slot) = List.range 13 ∧
      (calls.map (fun c => c.slot)).Nodup ∧
      ∀ k : Nat, k < 13 →
        ∃ c : ParserCall, calls[k]? = some c ∧ c.slot = k ∧
          defaultColor (k : Int) dark_mode = Outcome.ok c.spec := by
  obtain ⟨st', hrun, _, _, _, hcalls⟩ := installRun_spec parse theme dark_mode hlen
  have hslots : st'.calls.map (fun c => c.slot) = List.range 13 := by
    rw [hcalls, List.map_map]
    have hid : ((fun c : ParserCall => c.slot) ∘ callAt parse dark_mode theme.colors) = id := by
      funext j
      rfl
    rw [hid, List.map_id, List.range_eq_range']
    rfl
  refine ⟨st'.calls, by simp only [installCalls, hrun, Outcome.map], ?_, hslots, ?_, ?_⟩
  · rw [hcalls, List.length_map, List.length_range']
    rfl
  · rw [hslots]
    exact List.nodup_range 13
  · intro k hk
    refine ⟨callAt parse dark_mode theme.colors k, ?_, rfl, ?_⟩
    · rw [hcalls, List.getElem?_map, List.getElem?_range' 0 1 (show k < NUM_XMQ_COLOR_NAMES from hk)]
      simp
    · exact defaultColor_inRange dark_mode k hk

/-- Witness of C3 on the blank theme, in light mode, with the rejecting parser. -/
theorem install_calls_in_order_witness :
    blankTheme.colors.length = NUM_XMQ_COLOR_NAMES ∧
    ∃ calls : List ParserCall,
      installCalls rejectAll blankTheme false = Outcome.ok calls ∧
      calls.length = 13 ∧
      calls.map (fun c => c.slot) = List.range 13 ∧
      (calls.map (fun c => c.slot)).Nodup ∧
      ∀ k : Nat, k < 13 →
        ∃ c : ParserCall, calls[k]? = some c ∧ c.slot = k ∧
          defaultColor (k : Int) false = Outcome.ok c.spec :=
  ⟨rfl, install_calls_in_order rejectAll blankTheme false rfl⟩


/-- C4, the claim as stated fails: on the 13-slot theme that already holds the
parsed dark-mode defaults, `installDefaultThemeColors(theme, true)` with the parser
of the specification returns the same theme, so slot 0 (like every other slot) has
its pre-call value after the call. -/
theorem install_may_keep_slot_values :
    darkDefaultsTheme.colors.length = NUM_XMQ_COLOR_NAMES ∧
    installDefaultThemeColors string_to_color_def darkDefaultsTheme true =
      Outcome.ok darkDefaultsTheme ∧
    ¬ (∀ theme' : XMQTheme XMQColorDef Unit,
        installDefaultThemeColors string_to_color_def darkDefaultsTheme true =
          Outcome.ok theme' →
        ∀ i : Nat, i < NUM_XMQ_COLOR_NAMES →
          theme'.colors[i]? ≠ darkDefaultsTheme.colors[i]?) := by
  have hrun : installDefaultThemeColors string_to_color_def darkDefaultsTheme true =
      Outcome.ok darkDefaultsTheme := rfl
  refine ⟨rfl, hrun, ?_⟩
  intro h
  exact h darkDefaultsTheme hrun 0 (by decide) rfl

/-- C4 as amended: after `installDefaultThemeColors` on a theme with 13 slots every
slot holds what the parser yields for its default specification, whatever it held
before; the slot's value differs from its pre-call value exactly when the pre-call
value was not already that result. -/
theorem install_slot_changes_iff {C R : Type} (parse : ColorParser C)
    (theme : XMQTheme C R) (dark_mode : Bool)
    (hlen : theme.colors.length = NUM_XMQ_COLOR_NAMES) :
    ∃ theme' : XMQTheme C R,
      installDefaultThemeColors parse theme dark_mode = Outcome.ok theme' ∧
      ∀ i : Nat, i < NUM_XMQ_COLOR_NAMES →
        ∃ (spec : String) (old : C),
          defaultColor (i : Int) dark_mode = Outcome.ok spec ∧
          theme.colors[i]? = some old ∧
          theme'.colors[i]? = some (parse spec old).2 ∧
          (theme'.colors[i]? ≠ theme.colors[i]? ↔ (parse spec old).2 ≠ old) := by
  obtain ⟨theme', hrun, _, _, hin⟩ := install_spec parse theme dark_mode hlen
  refine ⟨theme', hrun, ?_⟩
  intro i hi
  obtain ⟨old, hold⟩ := slot_exists theme.colors hlen i hi
  refine ⟨specAt dark_mode i, old, defaultColor_inRange dark_mode i hi, hold,
    hin i old hi hold, ?_⟩
  rw [hin i old hi hold, hold]
  simp

/-- Witness of C4 as amended on the blank theme, in dark mode. -/
theorem install_slot_changes_iff_witness :
    blankTheme.colors.length = NUM_XMQ_COLOR_NAMES ∧
    ∃ theme' : XMQTheme XMQColorDef Unit,
      installDefaultThemeColors string_to_color_def blankTheme true = Outcome.ok theme' ∧
      ∀ i : Nat, i < NUM_XMQ_COLOR_NAMES →
        ∃ (spec : String) (old : XMQColorDef),
          defaultColor (i : Int) true = Outcome.ok spec ∧
          blankTheme.colors[i]? = some old ∧
          theme'.colors[i]? = some (string_to_color_def spec old).2 ∧
          (theme'.colors[i]? ≠ blankTheme.colors[i]? ↔
            (string_to_color_def spec old).2 ≠ old) :=
  ⟨rfl, install_slot_changes_iff string_to_color_def blankTheme true rfl⟩

/-- The parser of the specification yields, on each default specification, a color
that does not depend on the previous contents of the slot. -/
theorem string_to_color_def_on_defaults (dark_mode : Bool) (i : Int) (spec : String)
    (h : defaultColor i dark_mode = Outcome.ok spec) (c1 c2 : XMQColorDef) :
    (string_to_color_def spec c1).2 = (string_to_color_def spec c2).2 := by
  obtain ⟨j, hj, _, rfl⟩ := defaultColor_ok_index i dark_mode spec h
  have h13 : j < 13 := hj
  interval_cases j <;> cases dark_mode <;> rfl

/-- C5: `installDefaultThemeColors` is idempotent: on a theme with 13 slots, with a
parser whose result on each default specification depends on the specification
only, the call completes and a second call with the same mode on its result
returns that result unchanged. -/
theorem install_idempotent {C R : Type} (parse : ColorParser C)
    (theme : XMQTheme C R) (dark_mode : Bool)
    (hlen : theme.colors.length = NUM_XMQ_COLOR_NAMES)
    (hparse : ∀ (i : Int) (spec : String), defaultColor i dark_mode = Outcome.ok spec →
      ∀ c1 c2 : C, (parse spec c1).2 = (parse spec c2).2) :
    ∃ once : XMQTheme C R,
      installDefaultThemeColors parse theme dark_mode = Outcome.ok once ∧
      installDefaultThemeColors parse once dark_mode = Outcome.ok once := by
  obtain ⟨once, hrun, _, hlen1, hin1⟩ := install_spec parse theme dark_mode hlen
  obtain ⟨twice, hrun2, hrest2, hlen2, hin2⟩ := install_spec parse once dark_mode hlen1
  refine ⟨once, hrun, ?_⟩
  rw [hrun2]
  have hcolors : twice.colors = once.colors := by
    apply List.ext_getElem?
    intro j
    by_cases hj : j < NUM_XMQ_COLOR_NAMES
    · obtain ⟨old, hold⟩ := slot_exists theme.colors hlen j hj
      rw [hin2 j _ hj (hin1 j old hj hold), hin1 j old hj hold]
      rw [hparse (j : Int) (specAt dark_mode j) (defaultColor_inRange dark_mode j hj)
        _ old]
    · rw [List.getElem?_eq_none (by omega), List.getElem?_eq_none (by omega)]
  cases twice
  cases once
  simp only [] at hcolors hrest2
  rw [hcolors, hrest2]

/-- Witness of C5 on the blank theme, in light mode, with the parser of the
specification. -/
theorem install_idempotent_witness :
    blankTheme.colors.length = NUM_XMQ_COLOR_NAMES ∧
    ∃ once : XMQTheme XMQColorDef Unit,
      installDefaultThemeColors string_to_color_def blankTheme false = Outcome.ok once ∧
      installDefaultThemeColors string_to_color_def once false = Outcome.ok once :=
  ⟨rfl, install_idempotent string_to_color_def blankTheme false rfl
    (string_to_color_def_on_defaults false)⟩


/-- C6, the claim as stated fails: with a parser that rejects every specification,
`installDefaultThemeColors` on the blank 13-slot theme makes 13 rejected parser
calls and still returns normally, reporting no failure. -/
theorem install_masks_parse_failure :
    blankTheme.colors.length = NUM_XMQ_COLOR_NAMES ∧
    (installCalls rejectAll blankTheme true).map (fun cs => cs.map (fun c => c.accepted)) =
      Outcome.ok (List.replicate 13 false) ∧
    installDefaultThemeColors rejectAll blankTheme true = Outcome.ok blankTheme ∧
    (installDefaultThemeColors rejectAll blankTheme true).isError = false :=
  ⟨rfl, rfl, rfl, rfl⟩

/-- C6 as amended: `installDefaultThemeColors` returns no status and does not use
the parser's.  On a theme with 13 slots it returns normally for every parser,
whether or not the parser rejected a specification, each slot holding what the
parser wrote; and a parser that writes the same colors but returns other statuses
gives the same outcome. -/
theorem install_ignores_parser_status {C R : Type} (parse parse' : ColorParser C)
    (theme : XMQTheme C R) (dark_mode : Bool)
    (hlen : theme.colors.length = NUM_XMQ_COLOR_NAMES)
    (hsame : ∀ (s : String) (c : C), (parse' s c).2 = (parse s c).2) :
    ∃ theme' : XMQTheme C R,
      installDefaultThemeColors parse theme dark_mode = Outcome.ok theme' ∧
      installDefaultThemeColors parse' theme dark_mode = Outcome.ok theme' ∧
      (installDefaultThemeColors parse theme dark_mode).isError = false ∧
      ∀ i : Nat, i < NUM_XMQ_COLOR_NAMES →
        ∃ (spec : String) (old : C),
          defaultColor (i : Int) dark_mode = Outcome.ok spec ∧
          theme.colors[i]? = some old ∧
          theme'.colors[i]? = some (parse spec old).2 := by
  obtain ⟨theme', hrun, _, _, hin⟩ := install_spec parse theme dark_mode hlen
  refine ⟨theme', hrun, ?_, install_isError parse theme dark_mode, ?_⟩
  · rw [← hrun]
    exact installLoop_status_blind parse parse' dark_mode hsame NUM_XMQ_COLOR_NAMES 0
      _ _ rfl
  · intro i hi
    obtain ⟨old, hold⟩ := slot_exists theme.colors hlen i hi
    exact ⟨specAt dark_mode i, old, defaultColor_inRange dark_mode i hi, hold,
      hin i old hi hold⟩

/-- Witness of C6 as amended: the parser of the specification and a parser that
writes the same colors and always returns the status "rejected". -/
theorem install_ignores_parser_status_witness :
    blankTheme.colors.length = NUM_XMQ_COLOR_NAMES ∧
    ∃ theme' : XMQTheme XMQColorDef Unit,
      installDefaultThemeColors string_to_color_def blankTheme true = Outcome.ok theme' ∧
      installDefaultThemeColors (fun s c => (false, (string_to_color_def s c).2))
        blankTheme true = Outcome.ok theme' ∧
      (installDefaultThemeColors string_to_color_def blankTheme true).isError = false ∧
      ∀ i : Nat, i < NUM_XMQ_COLOR_NAMES →
        ∃ (spec : String) (old : XMQColorDef),
          defaultColor (i : Int) true = Outcome.ok spec ∧
          blankTheme.colors[i]? = some old ∧
          theme'.colors[i]? = some (string_to_color_def spec old).2 :=
  ⟨rfl, install_ignores_parser_status string_to_color_def
    (fun s c => (false, (string_to_color_def s c).2)) blankTheme true rfl
    (fun _ _ => rfl)⟩

/-- C7, the claim as stated fails: `defaultColor(13, true)` is not rejected with
OutOfRange; the function makes no check and the call is an array read one past the
end of the table, which is undefined behaviour. -/
theorem defaultColor_past_end_not_rejected :
    defaultColor 13 true = Outcome.undefined ∧
    defaultColor 13 true ≠ Outcome.error ErrorKind.OutOfRange ∧
    (defaultColor 13 true).isError = false := by
  decide

/-- C7 as amended: `defaultColor` makes no range check and reports no error.  It
returns the entry of the selected table when `0 <= i < 13`, and for every other
`i` the call is an array read outside the table (undefined behaviour); so it
returns a specification exactly when `0 <= i < 13`. -/
theorem defaultColor_unchecked (i : Int) (dark_mode : Bool) :
    defaultColor i dark_mode =
      (if 0 ≤ i ∧ i < (NUM_XMQ_COLOR_NAMES : Int) then
        Outcome.ok
          ((if dark_mode then default_darkbg_colors else default_lightbg_colors).getD
            i.toNat "")
      else Outcome.undefined) ∧
    ((defaultColor i dark_mode).isOk = true ↔ 0 ≤ i ∧ i < (NUM_XMQ_COLOR_NAMES : Int)) ∧
    (defaultColor i dark_mode).isError = false := by
  have hform : defaultColor i dark_mode =
      (if 0 ≤ i ∧ i < (NUM_XMQ_COLOR_NAMES : Int) then
        Outcome.ok
          ((if dark_mode then default_darkbg_colors else default_lightbg_colors).getD
            i.toNat "")
      else Outcome.undefined) := by
    by_cases hr : 0 ≤ i ∧ i < (NUM_XMQ_COLOR_NAMES : Int)
    · rw [if_pos hr]
      have hi : i = ((i.toNat : Nat) : Int) := by omega
      have h := defaultColor_inRange dark_mode i.toNat (by omega)
      rw [← hi] at h
      rw [h]
      rfl
    · rw [if_neg hr]
      exact defaultColor_outOfRange dark_mode i (by omega)
  refine ⟨hform, ?_, defaultColor_isError i dark_mode⟩
  rw [hform]
  by_cases hr : 0 ≤ i ∧ i < (NUM_XMQ_COLOR_NAMES : Int)
  · rw [if_pos hr]
    simp only [Outcome.isOk, true_iff]
    exact hr
  · rw [if_neg hr]
    simp only [Outcome.isOk]
    constructor
    · intro h
      cases h
    · intro h
      exact absurd h hr

/-- C8: the two default tables have the same length, the role count
`NUM_XMQ_COLOR_NAMES = 13` that bounds the loop of `installDefaultThemeColors`; so
`defaultColor(i, true)` returns a specification if and only if
`defaultColor(i, false)` does. -/
theorem default_tables_same_length :
    default_darkbg_colors.length = default_lightbg_colors.length ∧
    default_darkbg_colors.length = NUM_XMQ_COLOR_NAMES ∧
    NUM_XMQ_COLOR_NAMES = 13 ∧
    (∀ (C R : Type) (parse : ColorParser C) (theme : XMQTheme C R) (dark_mode : Bool),
      installRun parse theme dark_mode =
        installLoop parse dark_mode default_darkbg_colors.length 0
          { theme := theme, calls := [] }) ∧
    ∀ i : Int, (defaultColor i true).isOk = true ↔ (defaultColor i false).isOk = true := by
  refine ⟨rfl, rfl, rfl, fun _ _ _ _ _ => rfl, ?_⟩
  intro i
  by_cases hr : i < 0 ∨ (NUM_XMQ_COLOR_NAMES : Int) ≤ i
  · rw [defaultColor_outOfRange true i hr, defaultColor_outOfRange false i hr]
  · have hi : i = ((i.toNat : Nat) : Int) := by omega
    rw [hi, defaultColor_inRange true i.toNat (by omega),
      defaultColor_inRange false i.toNat (by omega)]
    simp only [Outcome.isOk]


/-- C9: role 3 (ENS) has the default `#a9a9a9` in dark mode and `#696969` in light
mode; and for every parser that yields different colors for these two
specifications, a 13-slot theme installed in dark mode and a 13-slot theme
installed in light mode hold different colors in slot 3. -/
theorem install_mode_sensitive {C R : Type} (parse : ColorParser C)
    (theme1 theme2 : XMQTheme C R)
    (hlen1 : theme1.colors.length = NUM_XMQ_COLOR_NAMES)
    (hlen2 : theme2.colors.length = NUM_XMQ_COLOR_NAMES)
    (hdiff : ∀ c1 c2 : C, (parse "#a9a9a9" c1).2 ≠ (parse "#696969" c2).2) :
    defaultColor 3 true = Outcome.ok "#a9a9a9" ∧
    defaultColor 3 false = Outcome.ok "#696969" ∧
    defaultColor 3 true ≠ defaultColor 3 false ∧
    ∃ dark light : XMQTheme C R,
      installDefaultThemeColors parse theme1 true = Outcome.ok dark ∧
      installDefaultThemeColors parse theme2 false = Outcome.ok light ∧
      dark.colors[3]? ≠ light.colors[3]? := by
  obtain ⟨dark, hrund, _, _, hind⟩ := install_spec parse theme1 true hlen1
  obtain ⟨light, hrunl, _, _, hinl⟩ := install_spec parse theme2 false hlen2
  obtain ⟨old1, hold1⟩ := slot_exists theme1.colors hlen1 3 (by decide)
  obtain ⟨old2, hold2⟩ := slot_exists theme2.colors hlen2 3 (by decide)
  refine ⟨rfl, rfl, by decide, dark, light, hrund, hrunl, ?_⟩
  rw [hind 3 old1 (by decide) hold1, hinl 3 old2 (by decide) hold2]
  intro h
  exact hdiff old1 old2 (Option.some.inj h)

/-- Witness of C9: the blank theme installed in dark mode, and in light mode the
theme that holds the dark defaults, with the parser of the specification. -/
theorem install_mode_sensitive_witness :
    blankTheme.colors.length = NUM_XMQ_COLOR_NAMES ∧
    darkDefaultsTheme.colors.length = NUM_XMQ_COLOR_NAMES ∧
    (∀ c1 c2 : XMQColorDef,
      ( string_to_color_def "#a9a9a9" c1).2 ≠ ( string_to_color_def "#696969" c2).2) ∧
    ∃ dark light : XMQTheme XMQColorDef Unit,
      installDefaultThemeColors string_to_color_def blankTheme true = Outcome.ok dark ∧
      installDefaultThemeColors string_to_color_def darkDefaultsTheme false =
        Outcome.ok light ∧
      dark.colors[3]? ≠ light.colors[3]? :=
  ⟨rfl, rfl, fun _ _ => by
      show XMQColorDef.mk 0xa9 0xa9 0xa9 false ≠ XMQColorDef.mk 0x69 0x69 0x69 false
      decide,
    (install_mode_sensitive string_to_color_def blankTheme darkDefaultsTheme rfl rfl
      (fun _ _ => by
        show XMQColorDef.mk 0xa9 0xa9 0xa9 false ≠ XMQColorDef.mk 0x69 0x69 0x69 false
        decide)).2.2.2⟩

/-- C10: with 13 roles, `defaultColor(1, true)` (role Q) is `#26a269_B`, and after
`installDefaultThemeColors(theme, true)` on a theme with 13 slots, with the parser
of the `#RRGGBB` plus optional style suffix format, slot 1 is the color with RGB
`(0x26, 0xa2, 0x69)` and the bold flag set. -/
theorem install_quote_color_dark {R : Type} (theme : XMQTheme XMQColorDef R)
    (hlen : theme.colors.length = NUM_XMQ_COLOR_NAMES) :
    NUM_XMQ_COLOR_NAMES = 13 ∧
    defaultColor 1 true = Outcome.ok "#26a269_B" ∧
    ∃ theme' : XMQTheme XMQColorDef R,
      installDefaultThemeColors string_to_color_def theme true = Outcome.ok theme' ∧
      theme'.colors[1]? = some { r := 0x26, g := 0xa2, b := 0x69, bold := true } := by
  obtain ⟨theme', hrun, _, _, hin⟩ := install_spec string_to_color_def theme true hlen
  obtain ⟨old, hold⟩ := slot_exists theme.colors hlen 1 (by decide)
  refine ⟨rfl, rfl, theme', hrun, ?_⟩
  rw [hin 1 old (by decide) hold]
  rfl

/-- Witness of C10 on the blank theme. -/
theorem install_quote_color_dark_witness :
    blankTheme.colors.length = NUM_XMQ_COLOR_NAMES ∧
    ∃ theme' : XMQTheme XMQColorDef Unit,
      installDefaultThemeColors string_to_color_def blankTheme true = Outcome.ok theme' ∧
      theme'.colors[1]? = some { r := 0x26, g := 0xa2, b := 0x69, bold := true } :=
  ⟨rfl, (install_quote_color_dark blankTheme rfl).2.2⟩

/-- C11: a parse failure cannot occur on the built-in defaults: for every parser
that accepts every string of the form `#RRGGBB` or `#RRGGBB_<style>`, on a theme
with 13 slots and in either mode, `installDefaultThemeColors` makes 13 parser calls
and the parser accepts the specification in each of them. -/
theorem install_defaults_never_rejected {C R : Type} (parse : ColorParser C)
    (theme : XMQTheme C R) (dark_mode : Bool)
    (hlen : theme.colors.length = NUM_XMQ_COLOR_NAMES)
    (haccept : ∀ (s : String) (c : C), wellFormedSpec s = true → (parse s c).1 = true) :
    ∃ calls : List ParserCall,
      installCalls parse theme dark_mode = Outcome.ok calls ∧
      calls.length = NUM_XMQ_COLOR_NAMES ∧
      ∀ c : ParserCall, c ∈ calls → c.accepted = true := by
  obtain ⟨st', hrun, _, _, _, hcalls⟩ := installRun_spec parse theme dark_mode hlen
  refine ⟨st'.calls, by simp only [installCalls, hrun, Outcome.map], ?_, ?_⟩
  · rw [hcalls, List.length_map, List.length_range']
  · intro c hc
    rw [hcalls] at hc
    obtain ⟨j, hj, rfl⟩ := List.mem_map.mp hc
    have hjN : j < NUM_XMQ_COLOR_NAMES := by
      have := (List.mem_range'_1.mp hj).2
      omega
    obtain ⟨old, hold⟩ := slot_exists theme.colors hlen j hjN
    simp only [callAt, hold]
    exact haccept _ old (specAt_wellFormed dark_mode j hjN)

/-- Witness of C11 on the blank theme, in dark mode, with the parser that accepts
exactly the well-formed specifications. -/
theorem install_defaults_never_rejected_witness :
    blankTheme.colors.length = NUM_XMQ_COLOR_NAMES ∧
    (∀ (s : String) (c : XMQColorDef),
      wellFormedSpec s = true → (acceptWellFormed s c).1 = true) ∧
    ∃ calls : List ParserCall,
      installCalls acceptWellFormed blankTheme true = Outcome.ok calls ∧
      calls.length = NUM_XMQ_COLOR_NAMES ∧
      ∀ c : ParserCall, c ∈ calls → c.accepted = true :=
  ⟨rfl, fun _ _ h => h,
    install_defaults_never_rejected acceptWellFormed blankTheme true rfl (fun _ _ h => h)⟩

/-- C12: `installDefaultThemeColors` changes nothing but the color array of the
theme.  Run on the memory that holds the two default tables and a theme with 13
slots, the call completes; after it both tables hold what they held before, every
other field of the theme has its previous value and the color array still has 13
slots; the theme in memory is the one `installDefaultThemeColors` returns.  And on
any memory, whatever the tables and the theme in it, on which the call completes
the two tables, the other fields and the length of the array are as before. -/
theorem install_frame {C R : Type} (parse : ColorParser C)
    (theme : XMQTheme C R) (dark_mode : Bool)
    (hlen : theme.colors.length = NUM_XMQ_COLOR_NAMES) :
    (∃ m' : ProgramState C R,
      installDefaultThemeColorsIn parse (programStart theme) dark_mode = Outcome.ok m' ∧
      installDefaultThemeColors parse theme dark_mode = Outcome.ok m'.theme ∧
      m'.darkbg_colors = default_darkbg_colors ∧
      m'.lightbg_colors = default_lightbg_colors ∧
      m'.theme.rest = theme.rest ∧
      m'.theme.colors.length = theme.colors.length ∧
      m'.theme.colors.length = NUM_XMQ_COLOR_NAMES) ∧
    (∀ m after : ProgramState C R,
      installDefaultThemeColorsIn parse m dark_mode = Outcome.ok after →
      after.darkbg_colors = m.darkbg_colors ∧
      after.lightbg_colors = m.lightbg_colors ∧
      after.theme.rest = m.theme.rest ∧
      after.theme.colors.length = m.theme.colors.length) ∧
    ∀ other after : XMQTheme C R,
      installDefaultThemeColors parse other dark_mode = Outcome.ok after →
      after.rest = other.rest ∧ after.colors.length = other.colors.length := by
  refine ⟨?_, ?_, ?_⟩
  · obtain ⟨theme', hrun, _, _, _⟩ := install_spec parse theme dark_mode hlen
    have hsim := installLoopIn_theme parse dark_mode NUM_XMQ_COLOR_NAMES 0
      (programStart theme) ({ theme := theme, calls := [] } : InstallState C R)
      rfl rfl rfl
    have hrun' : (installLoop parse dark_mode NUM_XMQ_COLOR_NAMES 0
        ({ theme := theme, calls := [] } : InstallState C R)).map (fun x => x.theme) =
        Outcome.ok theme' := hrun
    rw [hrun'] at hsim
    cases hmem : installLoopIn parse dark_mode NUM_XMQ_COLOR_NAMES 0 (programStart theme) with
    | ok m' =>
      rw [hmem] at hsim
      simp only [Outcome.map, Outcome.ok.injEq] at hsim
      obtain ⟨hd, hl, hrest, hlen'⟩ :=
        installLoopIn_frame parse dark_mode _ _ _ _ hmem
      refine ⟨m', hmem, ?_, hd, hl, hrest, hlen', ?_⟩
      · rw [hsim]
        exact hrun
      · rw [hlen']
        exact hlen
    | error e =>
      rw [hmem] at hsim
      cases hsim
    | undefined =>
      rw [hmem] at hsim
      cases hsim
  · intro m after hrun
    exact installLoopIn_frame parse dark_mode _ _ _ _ hrun
  · intro other after hrun
    unfold installDefaultThemeColors installRun at hrun
    cases hloop : installLoop parse dark_mode NUM_XMQ_COLOR_NAMES 0
        ({ theme := other, calls := [] } : InstallState C R) with
    | ok st =>
      rw [hloop] at hrun
      simp only [Outcome.map] at hrun
      cases hrun
      exact installLoop_frame parse dark_mode _ _ _ _ hloop
    | error e =>
      rw [hloop] at hrun
      cases hrun
    | undefined =>
      rw [hloop] at hrun
      cases hrun

/-- Witness of C12 on the theme with further fields, whose slots hold the dark
defaults, installed in light mode: the slots change, the text and the number of
the theme and both tables do not. -/
theorem install_frame_witness :
    namedTheme.colors.length = NUM_XMQ_COLOR_NAMES ∧
    namedTheme.colors[3]? = some { r := 0xa9, g := 0xa9, b := 0xa9, bold := false } ∧
    (installDefaultThemeColors string_to_color_def namedTheme false).map
        (fun t => (t.colors[3]?, t.rest)) =
      Outcome.ok (some { r := 0x69, g := 0x69, b := 0x69, bold := false }, ("sample", 4)) ∧
    ∃ m' : ProgramState XMQColorDef (String × Nat),
      installDefaultThemeColorsIn string_to_color_def (programStart namedTheme) false =
        Outcome.ok m' ∧
      installDefaultThemeColors string_to_color_def namedTheme false =
        Outcome.ok m'.theme ∧
      m'.darkbg_colors = default_darkbg_colors ∧
      m'.lightbg_colors = default_lightbg_colors ∧
      m'.theme.rest = namedTheme.rest ∧
      m'.theme.colors.length = namedTheme.colors.length ∧
      m'.theme.colors.length = NUM_XMQ_COLOR_NAMES :=
  ⟨rfl, rfl, rfl, (install_frame string_to_color_def namedTheme false rfl).1⟩

/-- C13: on a theme with 13 slots, in either mode and with any parser, the
installer never reaches an access outside an array: the call completes, and every
index `i` it uses satisfies `0 <= i < 13`, is inside the color array, and is one at
which `defaultColor` returns a table entry. -/
theorem install_indices_in_range {C R : Type} (parse : ColorParser C)
    (theme : XMQTheme C R) (dark_mode : Bool)
    (hlen : theme.colors.length = NUM_XMQ_COLOR_NAMES) :
    installDefaultThemeColors parse theme dark_mode ≠ Outcome.undefined ∧
    (installDefaultThemeColors parse theme dark_mode).isOk = true ∧
    ∃ calls : List ParserCall,
      installCalls parse theme dark_mode = Outcome.ok calls ∧
      calls.length = NUM_XMQ_COLOR_NAMES ∧
      ∀ c : ParserCall, c ∈ calls →
        (0 : Int) ≤ (c.slot : Int) ∧ (c.slot : Int) < (NUM_XMQ_COLOR_NAMES : Int) ∧
        c.slot < theme.colors.length ∧
        defaultColor (c.slot : Int) dark_mode = Outcome.ok c.spec := by
  obtain ⟨st', hrun, _, _, _, hcalls⟩ := installRun_spec parse theme dark_mode hlen
  have hok : installDefaultThemeColors parse theme dark_mode = Outcome.ok st'.theme := by
    simp only [installDefaultThemeColors, hrun, Outcome.map]
  refine ⟨?_, ?_, st'.calls, by simp only [installCalls, hrun, Outcome.map], ?_, ?_⟩
  · rw [hok]
    intro h
    cases h
  · rw [hok]
    rfl
  · rw [hcalls, List.length_map, List.length_range']
  · intro c hc
    rw [hcalls] at hc
    obtain ⟨j, hj, rfl⟩ := List.mem_map.mp hc
    have hjN : j < NUM_XMQ_COLOR_NAMES := by
      have := (List.mem_range'_1.mp hj).2
      omega
    refine ⟨?_, ?_, ?_, ?_⟩
    · exact Int.ofNat_nonneg j
    · exact Int.ofNat_lt.mpr hjN
    · show j < theme.colors.length
      omega
    · exact defaultColor_inRange dark_mode j hjN

/-- Witness of C13 on the blank theme, in light mode, with the rejecting parser. -/
theorem install_indices_in_range_witness :
    blankTheme.colors.length = NUM_XMQ_COLOR_NAMES ∧
    installDefaultThemeColors rejectAll blankTheme false ≠ Outcome.undefined ∧
    (installDefaultThemeColors rejectAll blankTheme false).isOk = true :=
  ⟨rfl, (install_indices_in_range rejectAll blankTheme false rfl).1,
    (install_indices_in_range rejectAll blankTheme false rfl).2.1⟩

/-- C14: the colors `installDefaultThemeColors` produces do not depend on what the
array held before.  With a parser whose result on each default specification of
the mode depends on the specification only, any two themes with 13 slots hold the
same colors after the call; in particular installing the other mode first and then
this mode gives the same theme as installing this mode alone. -/
theorem install_independent_of_old_colors {C R : Type} (parse : ColorParser C)
    (theme1 theme2 : XMQTheme C R) (dark_mode : Bool)
    (hlen1 : theme1.colors.length = NUM_XMQ_COLOR_NAMES)
    (hlen2 : theme2.colors.length = NUM_XMQ_COLOR_NAMES)
    (hparse : ∀ (i : Int) (spec : String), defaultColor i dark_mode = Outcome.ok spec →
      ∀ c1 c2 : C, (parse spec c1).2 = (parse spec c2).2) :
    (∃ after1 after2 : XMQTheme C R,
      installDefaultThemeColors parse theme1 dark_mode = Outcome.ok after1 ∧
      installDefaultThemeColors parse theme2 dark_mode = Outcome.ok after2 ∧
      after1.colors = after2.colors) ∧
    ∃ mid last alone : XMQTheme C R,
      installDefaultThemeColors parse theme1 (!dark_mode) = Outcome.ok mid ∧
      installDefaultThemeColors parse mid dark_mode = Outcome.ok last ∧
      installDefaultThemeColors parse theme1 dark_mode = Outcome.ok alone ∧
      last = alone := by
  constructor
  · obtain ⟨after1, after2, h1, h2, _, _, heq⟩ :=
      install_colors_eq parse theme1 theme2 dark_mode hlen1 hlen2 hparse
    exact ⟨after1, after2, h1, h2, heq⟩
  · obtain ⟨mid, hmid, hrestm, hlenm, _⟩ := install_spec parse theme1 (!dark_mode) hlen1
    obtain ⟨last, alone, hlast, halone, hrestl, _, heq⟩ :=
      install_colors_eq parse mid theme1 dark_mode hlenm hlen1 hparse
    obtain ⟨alone', halone', hresta, _, _⟩ := install_spec parse theme1 dark_mode hlen1
    rw [halone] at halone'
    cases halone'
    refine ⟨mid, last, alone, hmid, hlast, halone, ?_⟩
    cases last
    cases alone
    simp only [] at heq hrestl hresta
    rw [heq, hrestl, hrestm, hresta]

/-- Witness of C14: the blank theme and the theme that holds the dark defaults,
installed in light mode with the parser of the specification. -/
theorem install_independent_of_old_colors_witness :
    blankTheme.colors.length = NUM_XMQ_COLOR_NAMES ∧
    darkDefaultsTheme.colors.length = NUM_XMQ_COLOR_NAMES ∧
    ∃ after1 after2 : XMQTheme XMQColorDef Unit,
      installDefaultThemeColors string_to_color_def blankTheme false = Outcome.ok after1 ∧
      installDefaultThemeColors string_to_color_def darkDefaultsTheme false =
        Outcome.ok after2 ∧
      after1.colors = after2.colors :=
  ⟨rfl, rfl,
    (install_independent_of_old_colors string_to_color_def blankTheme darkDefaultsTheme
      false rfl rfl (string_to_color_def_on_defaults false)).1⟩

/-- C15: the display mode does not change a role's style modifier: for every index
`i < 13` the part of `defaultColor(i, true)` after its first seven characters equals
that part of `defaultColor(i, false)`; it is `_B` for the indices 1 and 6 and empty
for every other index. -/
theorem style_suffix_same_in_both_modes (i : Nat) (hi : i < NUM_XMQ_COLOR_NAMES) :
    ∃ dark light : String,
      defaultColor (i : Int) true = Outcome.ok dark ∧
      defaultColor (i : Int) false = Outcome.ok light ∧
      styleSuffix dark = styleSuffix light ∧
      styleSuffix dark = (if i = 1 ∨ i = 6 then "_B" else "") ∧
      styleSuffix light = (if i = 1 ∨ i = 6 then "_B" else "") := by
  have h13 : i < 13 := hi
  interval_cases i <;> exact ⟨_, _, rfl, rfl, by decide, by decide, by decide⟩

/-- Witness of C15 at index 6 (EKV). -/
theorem style_suffix_same_in_both_modes_witness :
    6 < NUM_XMQ_COLOR_NAMES ∧
    ∃ dark light : String,
      defaultColor ((6 : Nat) : Int) true = Outcome.ok dark ∧
      defaultColor ((6 : Nat) : Int) false = Outcome.ok light ∧
      styleSuffix dark = styleSuffix light ∧
      styleSuffix dark = (if (6 : Nat) = 1 ∨ (6 : Nat) = 6 then "_B" else "") ∧
      styleSuffix light = (if (6 : Nat) = 1 ∨ (6 : Nat) = 6 then "_B" else "") :=
  ⟨by decide, style_suffix_same_in_both_modes 6 (by decide)⟩

end Xmq
